import Mathlib

/-!
Verification of the display_icc library: a shallow embedding of its ICC
header codec and of the profile-resolution logic of its platform
providers (Linux, Windows, mock), with theorems settling the stated
properties.

External collaborators (D-Bus round trips, subprocess output, the
filesystem, Win32 monitor enumeration) are modelled as explicit
environment records supplying the results those calls would produce;
the control flow of the library itself is translated line by line from
the Rust source.
-/

namespace DisplayIcc

/-- A byte, as read from an ICC profile buffer or a file. -/
abbrev Byte := Fin 256

/-! ## Core data model (lib.rs) -/

/-- Error taxonomy of the library (lib.rs, `ProfileError`). -/
inductive ProfileError where
  | UnsupportedPlatform
  | DisplayNotFound (id : String)
  | ProfileNotAvailable (id : String)
  | SystemError (msg : String)
  | IoError (msg : String)
  | ParseError (msg : String)
deriving DecidableEq, Repr

/-- Color space of a profile (lib.rs, `ColorSpace`). -/
inductive ColorSpace where
  | RGB
  | Lab
  | Unknown
deriving DecidableEq, Repr

/-- A physical display (lib.rs, `Display`). -/
structure Display where
  id : String
  name : String
  is_primary : Bool
deriving DecidableEq, Repr

/-- A filesystem path, split into directory, file stem and extension:
the only observations the library makes of a `PathBuf`. -/
structure PathBuf where
  dir : String
  stem : String
  ext : Option String
deriving DecidableEq, Repr

/-- `Path::extension`. -/
def PathBuf.extension (p : PathBuf) : Option String := p.ext

/-- `Path::file_stem`. -/
def PathBuf.file_stem (p : PathBuf) : Option String :=
  if p.stem = "" then none else some p.stem

/-- Profile metadata (lib.rs, `ProfileInfo`). -/
structure ProfileInfo where
  name : String
  description : Option String
  file_path : Option PathBuf
  color_space : ColorSpace
deriving DecidableEq, Repr

/-- Resolution-engine configuration (lib.rs, `ProfileConfig`). -/
structure ProfileConfig where
  linux_prefer_dbus : Bool
  fallback_enabled : Bool
deriving DecidableEq, Repr

/-- `ProfileConfig::default()`. -/
def ProfileConfig.default : ProfileConfig :=
  { linux_prefer_dbus := true, fallback_enabled := true }

/-! ## UTF-8 lossy decoding

`String::from_utf8_lossy`, restricted to what the codec needs: decode a
byte sequence, replacing each maximal invalid subpart with U+FFFD. -/

/-- The U+FFFD replacement character. -/
def replacementChar : Char := Char.ofNat 0xFFFD

/-- Is `b` a UTF-8 continuation byte (`10xxxxxx`)? -/
def utf8IsCont (b : Byte) : Bool := 0x80 ≤ b.val && b.val ≤ 0xBF

/-- Lower bound for the first continuation byte of a 3-byte sequence. -/
def utf8Lo3 (b0 : Byte) : Nat := if b0.val = 0xE0 then 0xA0 else 0x80

/-- Upper bound for the first continuation byte of a 3-byte sequence. -/
def utf8Hi3 (b0 : Byte) : Nat := if b0.val = 0xED then 0x9F else 0xBF

/-- Lower bound for the first continuation byte of a 4-byte sequence. -/
def utf8Lo4 (b0 : Byte) : Nat := if b0.val = 0xF0 then 0x90 else 0x80

/-- Upper bound for the first continuation byte of a 4-byte sequence. -/
def utf8Hi4 (b0 : Byte) : Nat := if b0.val = 0xF4 then 0x8F else 0xBF

/-- Lossy UTF-8 decoding with U+FFFD substitution of maximal subparts,
as performed by `String::from_utf8_lossy`. -/
def utf8LossyDecode : List Byte → List Char
  | [] => []
  | b0 :: rest =>
    if b0.val < 0x80 then
      Char.ofNat b0.val :: utf8LossyDecode rest
    else if b0.val < 0xC2 then
      replacementChar :: utf8LossyDecode rest
    else if b0.val ≤ 0xDF then
      match rest with
      | [] => [replacementChar]
      | b1 :: rest1 =>
        if utf8IsCont b1 then
          Char.ofNat ((b0.val - 0xC0) * 0x40 + (b1.val - 0x80)) ::
            utf8LossyDecode rest1
        else
          replacementChar :: utf8LossyDecode (b1 :: rest1)
    else if b0.val ≤ 0xEF then
      match rest with
      | [] => [replacementChar]
      | b1 :: rest1 =>
        if utf8Lo3 b0 ≤ b1.val && b1.val ≤ utf8Hi3 b0 then
          match rest1 with
          | [] => [replacementChar]
          | b2 :: rest2 =>
            if utf8IsCont b2 then
              Char.ofNat ((b0.val - 0xE0) * 0x1000 + (b1.val - 0x80) * 0x40 +
                  (b2.val - 0x80)) :: utf8LossyDecode rest2
            else
              replacementChar :: utf8LossyDecode (b2 :: rest2)
        else
          replacementChar :: utf8LossyDecode (b1 :: rest1)
    else if b0.val ≤ 0xF4 then
      match rest with
      | [] => [replacementChar]
      | b1 :: rest1 =>
        if utf8Lo4 b0 ≤ b1.val && b1.val ≤ utf8Hi4 b0 then
          match rest1 with
          | [] => [replacementChar]
          | b2 :: rest2 =>
            if utf8IsCont b2 then
              match rest2 with
              | [] => [replacementChar]
              | b3 :: rest3 =>
                if utf8IsCont b3 then
                  Char.ofNat ((b0.val - 0xF0) * 0x40000 +
                      (b1.val - 0x80) * 0x1000 + (b2.val - 0x80) * 0x40 +
                      (b3.val - 0x80)) :: utf8LossyDecode rest3
                else
                  replacementChar :: utf8LossyDecode (b3 :: rest3)
            else
              replacementChar :: utf8LossyDecode (b2 :: rest2)
        else
          replacementChar :: utf8LossyDecode (b1 :: rest1)
    else
      replacementChar :: utf8LossyDecode rest

/-! ## ICC header codec (lib.rs, `IccHeader`) -/

/-- `data[i]`; all reads performed by the codec are guarded by the
length check, so the default value is never observed there. -/
def byteAt (data : List Byte) (i : Nat) : Byte := data.getD i 0

/-- `u32::from_be_bytes` over `data[off..off+4]`. -/
def read_u32_be (data : List Byte) (off : Nat) : Nat :=
  (byteAt data off).val * 0x1000000 + (byteAt data (off + 1)).val * 0x10000 +
    (byteAt data (off + 2)).val * 0x100 + (byteAt data (off + 3)).val

/-- `u16::from_be_bytes` over `data[off..off+2]`. -/
def read_u16_be (data : List Byte) (off : Nat) : Nat :=
  (byteAt data off).val * 0x100 + (byteAt data (off + 1)).val

/-- The slice `data[a..b]`. -/
def sliceBytes (data : List Byte) (a b : Nat) : List Byte :=
  (List.range (b - a)).map (fun i => byteAt data (a + i))

/-- `str::trim_end_matches('\0')`: drop all trailing NUL characters. -/
def trimEndNulChars (cs : List Char) : List Char :=
  (cs.reverse.dropWhile (fun c => c == Char.ofNat 0)).reverse

/-- The codec's `read_signature` helper: lossy-decode the 4 bytes at
`off` and strip trailing NULs. -/
def read_signature (data : List Byte) (off : Nat) : String :=
  String.mk (trimEndNulChars (utf8LossyDecode
    [byteAt data off, byteAt data (off + 1),
     byteAt data (off + 2), byteAt data (off + 3)]))

/-- Zero-pad a number on the left to width `w`, as the `{:0w}` format
specifier does. -/
def padZeros (w : Nat) (n : Nat) : String :=
  String.mk (List.replicate (w - (toString n).length) '0') ++ toString n

/-- The `YYYY-MM-DD HH:MM:SS` rendering of the six datetime fields. -/
def formatDatetime (y mo d h mi s : Nat) : String :=
  padZeros 4 y ++ "-" ++ padZeros 2 mo ++ "-" ++ padZeros 2 d ++ " " ++
    padZeros 2 h ++ ":" ++ padZeros 2 mi ++ ":" ++ padZeros 2 s

/-- Parsed ICC header (lib.rs, `IccHeader`). -/
structure IccHeader where
  profile_size : Nat
  preferred_cmm : String
  version : Nat × Nat
  device_class : String
  data_color_space : String
  connection_space : String
  creation_datetime : Option String
  platform : String
  flags : Nat
  device_manufacturer : String
  device_model : String
deriving DecidableEq, Repr

/-- `IccHeader::parse`. -/
def IccHeader.parse (data : List Byte) : Except ProfileError IccHeader :=
  if data.length < 128 then
    .error (.ParseError ("ICC profile data too short: " ++
      toString data.length ++ " bytes (minimum 128)"))
  else
    .ok
      { profile_size := read_u32_be data 0
        preferred_cmm := read_signature data 4
        version := (read_u32_be data 8 / 0x1000000,
                    read_u32_be data 8 / 0x100000 % 16)
        device_class := read_signature data 12
        data_color_space := read_signature data 16
        connection_space := read_signature data 20
        creation_datetime :=
          if (sliceBytes data 24 36).any (fun b => b.val != 0) then
            some (formatDatetime (read_u16_be data 24) (read_u16_be data 26)
              (read_u16_be data 28) (read_u16_be data 30)
              (read_u16_be data 32) (read_u16_be data 34))
          else none
        platform := read_signature data 40
        flags := read_u32_be data 44
        device_manufacturer := read_signature data 48
        device_model := read_signature data 52 }

/-- The device classes accepted by `IccHeader::validate`. -/
def validDeviceClasses : List String :=
  ["mntr", "scnr", "prtr", "link", "spac", "abst", "nmcl"]

/-- The data color spaces accepted by `IccHeader::validate`. -/
def validColorSpaces : List String :=
  ["RGB ", "CMYK", "Lab ", "XYZ ", "Luv ", "YCbr", "Yxy ", "HSV ", "HLS ",
   "CMY "]

/-- `IccHeader::validate`. -/
def IccHeader.validate (h : IccHeader) : Except ProfileError Unit :=
  if h.profile_size < 128 then
    .error (.ParseError ("Invalid profile size: " ++
      toString h.profile_size ++ " bytes"))
  else if !(validDeviceClasses.contains h.device_class) then
    .error (.ParseError ("Invalid device class: " ++ h.device_class))
  else if !(validColorSpaces.contains h.data_color_space) then
    .error (.ParseError ("Invalid data color space: " ++ h.data_color_space))
  else
    .ok ()

/-! ## Linux provider (linux.rs, `LinuxProfileProvider`)

The provider's external collaborators — the D-Bus colord service, the
`colormgr` subprocess and the filesystem — are modelled by a `LinuxEnv`
record holding the results their invocations would produce. -/

/-- A colormgr device record (linux.rs, `ColormgrDevice`). -/
structure ColormgrDevice where
  id : String
  kind : String
  model : String
  vendor : String
  serial : String
  profiles : List String
deriving DecidableEq, Repr

/-- A colormgr profile record (linux.rs, `ColormgrProfile`). -/
structure ColormgrProfile where
  id : String
  filename : Option PathBuf
  title : Option String
  kind : String
  colorspace : String
deriving DecidableEq, Repr

/-- Results of the Linux provider's external calls: whether the binary
was built with the dbus-support feature, whether the colord service
answers, what `get_dbus_devices` / `get_dbus_profile` /
`get_colormgr_devices` / `get_colormgr_profile` return, the directory
entries seen by the profile-directory scan, and the byte content of
files on disk. -/
structure LinuxEnv where
  dbus_feature : Bool
  dbus_available : Bool
  dbus_devices : Except ProfileError (List ColormgrDevice)
  dbus_profile : String → Except ProfileError ColormgrProfile
  colormgr_devices : Except ProfileError (List ColormgrDevice)
  colormgr_profile : String → Except ProfileError ColormgrProfile
  fs_entries : List PathBuf
  read_file : PathBuf → Except String (List Byte)

namespace Linux

/-- `LinuxProfileProvider::should_use_dbus`; always false when the
dbus-support feature is compiled out. -/
def should_use_dbus (cfg : ProfileConfig) (env : LinuxEnv) : Bool :=
  env.dbus_feature && (cfg.linux_prefer_dbus && env.dbus_available)

/-- `LinuxProfileProvider::parse_colorspace`. -/
def parse_colorspace (s : String) : ColorSpace :=
  match s.toLower with
  | "rgb" => .RGB
  | "srgb" => .RGB
  | "lab" => .Lab
  | _ => .Unknown

/-- `LinuxProfileProvider::scan_filesystem_profiles`: keep the entries
with an `icc` or `icm` extension; directory-read failures are swallowed,
so the call never errors. -/
def scan_filesystem_profiles (env : LinuxEnv) :
    Except ProfileError (List PathBuf) :=
  .ok (env.fs_entries.filter (fun p =>
    (p.extension.map (fun e => e == "icc" || e == "icm")).getD false))

/-- `LinuxProfileProvider::load_profile_data`. -/
def load_profile_data (env : LinuxEnv) (file_path : PathBuf) :
    Except ProfileError (List Byte) :=
  match env.read_file file_path with
  | .ok data => .ok data
  | .error e => .error (.IoError e)

/-- The loop body of `convert_devices_to_displays`: one enumerated
colormgr device becomes one `Display`; the first index is primary. -/
def convert_display (id : Nat × ColormgrDevice) : Display :=
  { id := id.2.id
    name :=
      if !id.2.model.isEmpty then
        if !id.2.vendor.isEmpty then id.2.vendor ++ " " ++ id.2.model
        else id.2.model
      else "Display " ++ toString (id.1 + 1)
    is_primary := id.1 == 0 }

/-- `LinuxProfileProvider::convert_devices_to_displays`. -/
def convert_devices_to_displays (colormgr_devices : List ColormgrDevice) :
    Except ProfileError (List Display) :=
  if (colormgr_devices.enum.map convert_display).isEmpty then
    .error (.SystemError "No display devices found")
  else
    .ok (colormgr_devices.enum.map convert_display)

/-- The colormgr-and-below part of `get_displays` (reached when D-Bus is
not selected, or when it failed with fallback enabled). -/
def get_displays_colormgr (cfg : ProfileConfig) (env : LinuxEnv) :
    Except ProfileError (List Display) :=
  match env.colormgr_devices with
  | .ok devices => convert_devices_to_displays devices
  | .error e =>
    if !cfg.fallback_enabled then .error e
    else
      match scan_filesystem_profiles env with
      | .ok profiles =>
        if !profiles.isEmpty then
          .ok [{ id := "filesystem-fallback", name := "Generic Display",
                 is_primary := true }]
        else
          .error (.SystemError "No display devices found via any method")
      | .error _ =>
        .error (.SystemError "No display devices found via any method")

/-- `LinuxProfileProvider::get_displays`. -/
def get_displays (cfg : ProfileConfig) (env : LinuxEnv) :
    Except ProfileError (List Display) :=
  if should_use_dbus cfg env then
    match env.dbus_devices with
    | .ok devices => convert_devices_to_displays devices
    | .error _ =>
      if !cfg.fallback_enabled then
        .error (.SystemError "D-Bus method failed and fallback is disabled")
      else get_displays_colormgr cfg env
  else get_displays_colormgr cfg env

/-- `LinuxProfileProvider::get_primary_display`. -/
def get_primary_display (cfg : ProfileConfig) (env : LinuxEnv) :
    Except ProfileError Display :=
  match get_displays cfg env with
  | .error e => .error e
  | .ok displays =>
    match displays.find? (fun d => d.is_primary) with
    | some d => .ok d
    | none => .error (.DisplayNotFound "No primary display found")

/-- The early filesystem-fallback branch of `get_profile`: for the
sentinel display id, a hit on the first scanned profile returns
immediately; an empty scan falls through. -/
def fs_fallback_profile (env : LinuxEnv) (display : Display) :
    Option (Except ProfileError ProfileInfo) :=
  if display.id == "filesystem-fallback" then
    match scan_filesystem_profiles env with
    | .error e => some (.error e)
    | .ok profiles =>
      match profiles.head? with
      | some profile_path =>
        some (.ok
          { name := profile_path.file_stem.getD "Unknown Profile"
            description := none
            file_path := some profile_path
            color_space := .Unknown })
      | none => none
  else none

/-- The nested `if let` chain of `get_profile`'s D-Bus branch: any
failure along it (device list, device lookup, profile list, profile
read) falls through to the fallback decision. -/
def dbus_profile_attempt (env : LinuxEnv) (display : Display) :
    Option ProfileInfo :=
  match env.dbus_devices with
  | .error _ => none
  | .ok devices =>
    match devices.find? (fun d => d.id == display.id) with
    | none => none
    | some device =>
      match device.profiles.head? with
      | none => none
      | some profile_id =>
        match env.dbus_profile profile_id with
        | .error _ => none
        | .ok profile =>
          some
            { name := profile.title.getD profile.id
              description := none
              file_path := profile.filename
              color_space := parse_colorspace profile.colorspace }

/-- The colormgr part of `get_profile`. -/
def get_profile_colormgr (env : LinuxEnv) (display : Display) :
    Except ProfileError ProfileInfo :=
  match env.colormgr_devices with
  | .error e => .error e
  | .ok colormgr_devices =>
    match colormgr_devices.find? (fun d => d.id == display.id) with
    | none => .error (.DisplayNotFound display.id)
    | some device =>
      match device.profiles.head? with
      | none => .error (.ProfileNotAvailable display.id)
      | some profile_id =>
        match env.colormgr_profile profile_id with
        | .error e => .error e
        | .ok colormgr_profile =>
          .ok
            { name := colormgr_profile.title.getD colormgr_profile.id
              description := none
              file_path := colormgr_profile.filename
              color_space := parse_colorspace colormgr_profile.colorspace }

/-- `LinuxProfileProvider::get_profile`. -/
def get_profile (cfg : ProfileConfig) (env : LinuxEnv) (display : Display) :
    Except ProfileError ProfileInfo :=
  match fs_fallback_profile env display with
  | some result => result
  | none =>
    if should_use_dbus cfg env then
      match dbus_profile_attempt env display with
      | some info => .ok info
      | none =>
        if !cfg.fallback_enabled then
          .error (.SystemError "D-Bus method failed and fallback is disabled")
        else get_profile_colormgr env display
    else get_profile_colormgr env display

/-- `LinuxProfileProvider::get_profile_data`. -/
def get_profile_data (cfg : ProfileConfig) (env : LinuxEnv)
    (display : Display) : Except ProfileError (List Byte) :=
  match get_profile cfg env display with
  | .error e => .error e
  | .ok profile_info =>
    match profile_info.file_path with
    | none =>
      .error (.ProfileNotAvailable
        ("No file path available for display " ++ display.id))
    | some file_path => load_profile_data env file_path

end Linux

/-! ## Mock provider (mock.rs, `MockProfileProvider`) -/

/-- The mock provider's state; its hash maps become functions from
display id to optional entries. -/
structure MockProfileProvider where
  displays : List Display
  profiles : String → Option ProfileInfo
  profile_data : String → Option (List Byte)
  should_fail : String → Option ProfileError

namespace Mock

/-- `MockProfileProvider::get_displays`. -/
def get_displays (m : MockProfileProvider) :
    Except ProfileError (List Display) :=
  match m.should_fail "get_displays" with
  | some e => .error e
  | none => .ok m.displays

/-- `MockProfileProvider::get_primary_display`. -/
def get_primary_display (m : MockProfileProvider) :
    Except ProfileError Display :=
  match m.should_fail "get_primary_display" with
  | some e => .error e
  | none =>
    match m.displays.find? (fun d => d.is_primary) with
    | some d => .ok d
    | none => .error (.DisplayNotFound "No primary display found")

/-- `MockProfileProvider::get_profile`. -/
def get_profile (m : MockProfileProvider) (display : Display) :
    Except ProfileError ProfileInfo :=
  match m.should_fail display.id with
  | some e => .error e
  | none =>
    match m.profiles display.id with
    | some p => .ok p
    | none => .error (.ProfileNotAvailable display.id)

end Mock

/-! ## Windows provider (windows.rs, `WindowsProfileProvider`)

Monitor enumeration and profile resolution go through Win32 calls; the
environment supplies their results. `resolve_profile` stands for the
provider's `get_profile`, whose internals are Win32-bound; the claims
below only depend on its result. -/

/-- A monitor as reported by `enumerate_monitors`. -/
structure Monitor where
  name : String
  is_primary : Bool
deriving DecidableEq, Repr

/-- Results of the Windows provider's external calls. -/
structure WindowsEnv where
  monitors : Except ProfileError (List Monitor)
  resolve_profile : Display → Except ProfileError ProfileInfo
  read_file : PathBuf → Except String (List Byte)

namespace Windows

/-- `WindowsProfileProvider::get_displays`. -/
def get_displays (env : WindowsEnv) : Except ProfileError (List Display) :=
  match env.monitors with
  | .error e => .error e
  | .ok monitors =>
    .ok (monitors.enum.map (fun im =>
      { id := "monitor_" ++ toString im.1
        name := im.2.name
        is_primary := im.2.is_primary : Display }))

/-- `WindowsProfileProvider::get_primary_display`: first monitor flagged
primary wins; failing that, the first monitor is treated as primary;
failing that, `DisplayNotFound`. -/
def get_primary_display (env : WindowsEnv) : Except ProfileError Display :=
  match env.monitors with
  | .error e => .error e
  | .ok monitors =>
    match monitors.enum.find? (fun im => im.2.is_primary) with
    | some im =>
      .ok { id := "monitor_" ++ toString im.1, name := im.2.name,
            is_primary := true }
    | none =>
      match monitors.head? with
      | some monitor =>
        .ok { id := "monitor_0", name := monitor.name, is_primary := true }
      | none => .error (.DisplayNotFound "No displays found")

/-- windows.rs `read_profile_file`. -/
def read_profile_file (env : WindowsEnv) (profile_path : PathBuf) :
    Except ProfileError (List Byte) :=
  match env.read_file profile_path with
  | .ok data => .ok data
  | .error e => .error (.IoError e)

/-- `WindowsProfileProvider::get_profile_data`. -/
def get_profile_data (env : WindowsEnv) (display : Display) :
    Except ProfileError (List Byte) :=
  match env.resolve_profile display with
  | .error e => .error e
  | .ok profile_info =>
    match profile_info.file_path with
    | some file_path => read_profile_file env file_path
    | none =>
      .error (.ProfileNotAvailable "Profile file path not available")

end Windows

/-! ## Aggregate operation (lib.rs, `get_all_display_profiles`)

`create_provider` dispatches on the platform; the loop below is what
both `get_all_display_profiles` and
`get_all_display_profiles_with_config` run on the provider it yields,
so the provider is abstracted as its two operations. -/

/-- A provider as used by the aggregate operation. -/
structure Provider where
  get_displays : Except ProfileError (List Display)
  get_profile : Display → Except ProfileError ProfileInfo

/-- The accumulation loop of `get_all_display_profiles`: push each
(display, profile) pair, skip `ProfileNotAvailable`, return any other
error immediately. -/
def collect_profiles (get_profile : Display → Except ProfileError ProfileInfo) :
    List Display → Except ProfileError (List (Display × ProfileInfo))
  | [] => .ok []
  | display :: rest =>
    match get_profile display with
    | .ok profile =>
      match collect_profiles get_profile rest with
      | .ok results => .ok ((display, profile) :: results)
      | .error e => .error e
    | .error (.ProfileNotAvailable _) => collect_profiles get_profile rest
    | .error e => .error e

/-- `get_all_display_profiles` (and its `_with_config` variant): the
provider's displays, paired with their profiles. -/
def get_all_display_profiles (p : Provider) :
    Except ProfileError (List (Display × ProfileInfo)) :=
  match p.get_displays with
  | .error e => .error e
  | .ok displays => collect_profiles p.get_profile displays

/-! ## Shared helper lemmas -/

set_option maxRecDepth 8000

instance {ε α : Type} [DecidableEq ε] [DecidableEq α] : DecidableEq (Except ε α)
  | .ok a, .ok b =>
    if h : a = b then .isTrue (by rw [h]) else .isFalse (by simp [h])
  | .ok _, .error _ => .isFalse (by simp)
  | .error _, .ok _ => .isFalse (by simp)
  | .error e, .error f =>
    if h : e = f then .isTrue (by rw [h]) else .isFalse (by simp [h])

/-- On a buffer long enough, `parse` returns the header record of the
field extractions, unconditionally. -/
theorem parse_eq_ok (data : List Byte) (h : ¬ data.length < 128) :
    IccHeader.parse data = .ok
      { profile_size := read_u32_be data 0
        preferred_cmm := read_signature data 4
        version := (read_u32_be data 8 / 0x1000000,
                    read_u32_be data 8 / 0x100000 % 16)
        device_class := read_signature data 12
        data_color_space := read_signature data 16
        connection_space := read_signature data 20
        creation_datetime :=
          if (sliceBytes data 24 36).any (fun b => b.val != 0) then
            some (formatDatetime (read_u16_be data 24) (read_u16_be data 26)
              (read_u16_be data 28) (read_u16_be data 30)
              (read_u16_be data 32) (read_u16_be data 34))
          else none
        platform := read_signature data 40
        flags := read_u32_be data 44
        device_manufacturer := read_signature data 48
        device_model := read_signature data 52 } := by
  rw [IccHeader.parse, if_neg h]

/-- String concatenation concatenates the character lists. -/
theorem string_data_append (a b : String) : (a ++ b).data = a.data ++ b.data :=
  rfl

/-- The datetime guard `data[24..36].iter().any(|&b| b != 0)`, expressed
over byte positions. -/
theorem slice_any_iff (data : List Byte) :
    ((sliceBytes data 24 36).any (fun b => b.val != 0) = true) ↔
      ∃ i, 24 ≤ i ∧ i < 36 ∧ (byteAt data i).val ≠ 0 := by
  simp only [sliceBytes, List.any_eq_true, List.mem_map, List.mem_range,
    bne_iff_ne, ne_eq]
  constructor
  · rintro ⟨b, ⟨i, hi, rfl⟩, hb⟩
    exact ⟨24 + i, by omega, by omega, hb⟩
  · rintro ⟨i, h24, h36, hb⟩
    refine ⟨byteAt data (24 + (i - 24)), ⟨i - 24, by omega, rfl⟩, ?_⟩
    have hi : 24 + (i - 24) = i := by omega
    rw [hi]
    exact hb

/-! ## Claims about the ICC header codec -/

/-- C3: for every byte buffer of length < 128, `IccHeader::parse` fails
with a `ParseError` whose message text mentions both the required
minimum (128) and the buffer's actual length; for every buffer of
length ≥ 128, `parse` never fails solely due to length. -/
theorem c3_parse_length_guard (data : List Byte) :
    (data.length < 128 →
      ∃ msg, IccHeader.parse data = .error (.ParseError msg) ∧
        (∃ s t, msg.data = s ++ ("128").data ++ t) ∧
        (∃ s t, msg.data = s ++ (toString data.length).data ++ t)) ∧
    (128 ≤ data.length → ∃ hd, IccHeader.parse data = .ok hd) := by
  constructor
  · intro h
    refine ⟨"ICC profile data too short: " ++ toString data.length ++
      " bytes (minimum 128)", by rw [IccHeader.parse, if_pos h], ?_, ?_⟩
    · refine ⟨("ICC profile data too short: ").data ++
        (toString data.length).data ++ (" bytes (minimum ").data,
        (")").data, ?_⟩
      simp only [string_data_append, List.append_assoc]
      rfl
    · exact ⟨("ICC profile data too short: ").data,
        (" bytes (minimum 128)").data,
        by simp only [string_data_append, List.append_assoc]⟩
  · intro h
    exact ⟨_, parse_eq_ok data (by omega)⟩

/-- C3 witness: the guard fires on the empty buffer and is quiet on a
zero-filled 128-byte buffer. -/
theorem c3_parse_length_guard_witness :
    (∃ msg, IccHeader.parse [] = .error (.ParseError msg) ∧
      (∃ s t, msg.data = s ++ ("128").data ++ t) ∧
      (∃ s t, msg.data = s ++ (toString (List.length ([] : List Byte))).data
        ++ t)) ∧
    (∃ hd, IccHeader.parse (List.replicate 128 (0 : Byte)) = .ok hd) :=
  ⟨(c3_parse_length_guard []).1 (by decide),
   (c3_parse_length_guard (List.replicate 128 (0 : Byte))).2 (by decide)⟩

/-- C10: for every byte buffer of length ≥ 128, `IccHeader::parse`
succeeds regardless of content; semantic rejection can only come from
the separate `validate`. -/
theorem c10_parse_total (data : List Byte) (hlen : 128 ≤ data.length) :
    ∃ hd, IccHeader.parse data = .ok hd :=
  ⟨_, parse_eq_ok data (by omega)⟩

/-- C10 witness: a buffer of 128 `0xFF` bytes — unrecognized signatures,
arbitrary version and flags — still parses. -/
theorem c10_parse_total_witness :
    ∃ hd, IccHeader.parse (List.replicate 128 (255 : Byte)) = .ok hd :=
  c10_parse_total (List.replicate 128 (255 : Byte)) (by decide)

/-- C4: `IccHeader::validate` errors exactly when `profile_size < 128`,
or the device class is outside the fixed recognized set, or the data
color space is outside the fixed recognized set; all other header
fields never affect the result. -/
theorem c4_validate_criteria (h : IccHeader) :
    ((∃ e, IccHeader.validate h = .error e) ↔
      (h.profile_size < 128 ∨ h.device_class ∉ validDeviceClasses ∨
        h.data_color_space ∉ validColorSpaces)) ∧
    (∀ h' : IccHeader, h'.profile_size = h.profile_size →
      h'.device_class = h.device_class →
      h'.data_color_space = h.data_color_space →
      IccHeader.validate h' = IccHeader.validate h) := by
  constructor
  · unfold IccHeader.validate
    by_cases h1 : h.profile_size < 128 <;>
      by_cases h2 : h.device_class ∈ validDeviceClasses <;>
        by_cases h3 : h.data_color_space ∈ validColorSpaces <;>
          simp [h1, h2, h3, List.elem_iff, List.contains]
  · intro h' e1 e2 e3
    unfold IccHeader.validate
    rw [e1, e2, e3]

/-- C4 witness: a header with device class `zzzz` is rejected, and two
headers differing only in connection space, platform and the other
informational fields validate identically. -/
theorem c4_validate_criteria_witness :
    (∃ e, IccHeader.validate
      { profile_size := 1024, preferred_cmm := "", version := (4, 3),
        device_class := "zzzz", data_color_space := "RGB ",
        connection_space := "XYZ ", creation_datetime := none,
        platform := "", flags := 0, device_manufacturer := "",
        device_model := "" } = .error e) ∧
    IccHeader.validate
      { profile_size := 1024, preferred_cmm := "ADBE", version := (2, 0),
        device_class := "mntr", data_color_space := "RGB ",
        connection_space := "Lab ", creation_datetime := some "x",
        platform := "MSFT", flags := 7, device_manufacturer := "m",
        device_model := "n" } =
    IccHeader.validate
      { profile_size := 1024, preferred_cmm := "", version := (4, 3),
        device_class := "mntr", data_color_space := "RGB ",
        connection_space := "XYZ ", creation_datetime := none,
        platform := "APPL", flags := 0, device_manufacturer := "",
        device_model := "" } :=
  ⟨(c4_validate_criteria _).1.mpr (Or.inr (Or.inl (by decide))),
   (c4_validate_criteria _).2 _ rfl rfl rfl⟩

/-- C5: for every buffer of length ≥ 128, the parsed header's creation
datetime is absent exactly when bytes 24..36 are all zero; otherwise it
is the six big-endian u16 fields rendered zero-padded as
`YYYY-MM-DD HH:MM:SS`, with no calendar validation. -/
theorem c5_creation_datetime (data : List Byte) (hlen : 128 ≤ data.length) :
    ∃ hd, IccHeader.parse data = .ok hd ∧
      (hd.creation_datetime = none ↔
        ∀ i, 24 ≤ i → i < 36 → (byteAt data i).val = 0) ∧
      ((∃ i, 24 ≤ i ∧ i < 36 ∧ (byteAt data i).val ≠ 0) →
        hd.creation_datetime = some (formatDatetime
          (read_u16_be data 24) (read_u16_be data 26) (read_u16_be data 28)
          (read_u16_be data 30) (read_u16_be data 32)
          (read_u16_be data 34))) := by
  refine ⟨_, parse_eq_ok data (by omega), ?_, ?_⟩
  · by_cases hany : (sliceBytes data 24 36).any (fun b => b.val != 0) = true
    · rw [if_pos hany]
      obtain ⟨i, h24, h36, hb⟩ := (slice_any_iff data).mp hany
      simp only [reduceCtorEq, false_iff, not_forall]
      exact ⟨i, h24, h36, hb⟩
    · rw [if_neg hany]
      simp only [true_iff]
      intro i h24 h36
      by_contra hb
      exact hany ((slice_any_iff data).mpr ⟨i, h24, h36, hb⟩)
  · intro hex
    rw [if_pos ((slice_any_iff data).mpr hex)]

/-- C5 witness: a header encoding 2023-12-25 14:30:45 renders exactly
that string, and an all-zero datetime block yields absence. -/
theorem c5_creation_datetime_witness :
    (∃ hd, IccHeader.parse (List.replicate 24 (0 : Byte) ++
        [0x07, 0xE7, 0, 12, 0, 25, 0, 14, 0, 30, 0, 45] ++
        List.replicate 92 0) = .ok hd ∧
      hd.creation_datetime = some "2023-12-25 14:30:45") ∧
    (∃ hd, IccHeader.parse (List.replicate 128 (0 : Byte)) = .ok hd ∧
      hd.creation_datetime = none) := by
  constructor
  · obtain ⟨hd, hok, -, hpos⟩ :=
      c5_creation_datetime (List.replicate 24 (0 : Byte) ++
        [0x07, 0xE7, 0, 12, 0, 25, 0, 14, 0, 30, 0, 45] ++
        List.replicate 92 0) (by decide)
    refine ⟨hd, hok, ?_⟩
    rw [hpos ⟨24, by decide, by decide, by decide⟩]
    decide
  · obtain ⟨hd, hok, habs, -⟩ :=
      c5_creation_datetime (List.replicate 128 (0 : Byte)) (by decide)
    refine ⟨hd, hok, habs.mpr ?_⟩
    intro i h24 h36
    interval_cases i <;> decide

/-! ## Claims about the aggregate operation -/

/-- The per-display lookup either succeeded or failed with
`ProfileNotAvailable` — the benign outcomes the aggregate loop keeps
going over. -/
def okOrPNA (r : Except ProfileError ProfileInfo) : Prop :=
  (∃ p, r = .ok p) ∨ (∃ s, r = .error (.ProfileNotAvailable s))

/-- When every display resolves benignly, the loop returns the
successful pairs in order. -/
theorem collect_profiles_all_ok
    (gp : Display → Except ProfileError ProfileInfo) :
    ∀ ds : List Display, (∀ d ∈ ds, okOrPNA (gp d)) →
      collect_profiles gp ds = .ok (ds.filterMap (fun d =>
        match gp d with
        | .ok prof => some (d, prof)
        | .error _ => none))
  | [], _ => rfl
  | d :: rest, hall => by
    have hrest := collect_profiles_all_ok gp rest
      (fun d' hd' => hall d' (by simp [hd']))
    rcases hall d (by simp) with ⟨p, hp⟩ | ⟨s, hs⟩
    · simp [collect_profiles, hp, hrest, List.filterMap_cons]
    · simp [collect_profiles, hs, hrest, List.filterMap_cons]

/-- A non-`ProfileNotAvailable` failure after benign displays aborts the
loop with exactly that failure. -/
theorem collect_profiles_abort
    (gp : Display → Except ProfileError ProfileInfo) :
    ∀ (pre : List Display) (d : Display) (post : List Display)
      (e : ProfileError),
      (∀ d' ∈ pre, okOrPNA (gp d')) → gp d = .error e →
      (∀ s, e ≠ .ProfileNotAvailable s) →
      collect_profiles gp (pre ++ d :: post) = .error e
  | [], d, post, e, _, he, hne => by
    cases e <;>
      first
        | exact absurd rfl (hne _)
        | simp [collect_profiles, he]
  | d' :: pre', d, post, e, hpre, he, hne => by
    have ih := collect_profiles_abort gp pre' d post e
      (fun x hx => hpre x (by simp [hx])) he hne
    rcases hpre d' (by simp) with ⟨p, hp⟩ | ⟨s, hs⟩
    · simp [collect_profiles, hp, ih]
    · simp [collect_profiles, hs, ih]

/-- C2: over the enumerated displays, the aggregate operation omits
every display whose lookup fails with `ProfileNotAvailable`, returns
the remaining pairs in enumeration order, and aborts immediately with
the first non-`ProfileNotAvailable` error, yielding no partial list. -/
theorem c2_aggregate_skip (p : Provider) (displays : List Display)
    (h : p.get_displays = .ok displays) :
    ((∀ d ∈ displays, okOrPNA (p.get_profile d)) →
      get_all_display_profiles p = .ok (displays.filterMap (fun d =>
        match p.get_profile d with
        | .ok prof => some (d, prof)
        | .error _ => none))) ∧
    (∀ pre d post e, displays = pre ++ d :: post →
      (∀ d' ∈ pre, okOrPNA (p.get_profile d')) →
      p.get_profile d = .error e → (∀ s, e ≠ .ProfileNotAvailable s) →
      get_all_display_profiles p = .error e) := by
  constructor
  · intro hall
    unfold get_all_display_profiles
    rw [h]
    exact collect_profiles_all_ok p.get_profile displays hall
  · intro pre d post e hsplit hpre he hne
    unfold get_all_display_profiles
    rw [h, hsplit]
    exact collect_profiles_abort p.get_profile pre d post e hpre he hne

/-- Three displays for the aggregate examples. -/
def dispA : Display := ⟨"a", "A", true⟩

def dispB : Display := ⟨"b", "B", false⟩

def dispC : Display := ⟨"c", "C", false⟩

/-- Profile resolved for display `a`. -/
def profA : ProfileInfo := ⟨"Profile A", none, none, .RGB⟩

/-- Profile resolved for display `c`. -/
def profC : ProfileInfo := ⟨"Profile C", none, none, .RGB⟩

/-- Provider where the middle display has no profile. -/
def provider_skip : Provider :=
  { get_displays := .ok [dispA, dispB, dispC]
    get_profile := fun d =>
      if d.id == "b" then .error (.ProfileNotAvailable "b")
      else if d.id == "a" then .ok profA
      else .ok profC }

/-- Provider where the middle display fails with a system error. -/
def provider_abort : Provider :=
  { get_displays := .ok [dispA, dispB, dispC]
    get_profile := fun d =>
      if d.id == "b" then .error (.SystemError "backend failure")
      else if d.id == "a" then .ok profA
      else .ok profC }

/-- C2 witness: over three displays, a `ProfileNotAvailable` display is
skipped leaving the two others in order, while a `SystemError` display
aborts the aggregate with that error. -/
theorem c2_aggregate_skip_witness :
    get_all_display_profiles provider_skip = .ok [(dispA, profA),
      (dispC, profC)] ∧
    get_all_display_profiles provider_abort =
      .error (.SystemError "backend failure") := by
  constructor
  · rw [(c2_aggregate_skip provider_skip [dispA, dispB, dispC] rfl).1 ?_]
    · rfl
    · intro d hd
      simp only [List.mem_cons, List.not_mem_nil, or_false] at hd
      rcases hd with rfl | rfl | rfl
      · exact Or.inl ⟨_, rfl⟩
      · exact Or.inr ⟨_, rfl⟩
      · exact Or.inl ⟨_, rfl⟩
  · refine (c2_aggregate_skip provider_abort [dispA, dispB, dispC] rfl).2
      [dispA] dispB [dispC] _ rfl ?_ rfl ?_
    · intro d' hd'
      simp only [List.mem_cons, List.not_mem_nil, or_false] at hd'
      rcases hd' with rfl
      exact Or.inl ⟨_, rfl⟩
    · intro s hcon
      cases hcon

/-! ## Helper lemmas about the providers -/

/-- Updating only the colormgr fields of the environment does not
change which channel is preferred. -/
theorem should_use_dbus_update (cfg : ProfileConfig) (env : LinuxEnv)
    (cd : Except ProfileError (List ColormgrDevice))
    (cp : String → Except ProfileError ColormgrProfile) :
    Linux.should_use_dbus cfg
      { env with colormgr_devices := cd, colormgr_profile := cp } =
      Linux.should_use_dbus cfg env :=
  rfl

/-- Updating only the colormgr fields of the environment does not
change the D-Bus profile attempt. -/
theorem dbus_profile_attempt_update (env : LinuxEnv) (display : Display)
    (cd : Except ProfileError (List ColormgrDevice))
    (cp : String → Except ProfileError ColormgrProfile) :
    Linux.dbus_profile_attempt
      { env with colormgr_devices := cd, colormgr_profile := cp } display =
      Linux.dbus_profile_attempt env display :=
  rfl

/-- A display produced from a nonzero enumeration index is not
primary. -/
theorem convert_display_not_primary (k : Nat) (hk : k ≠ 0)
    (d : ColormgrDevice) :
    (Linux.convert_display (k, d)).is_primary = false := by
  simp [Linux.convert_display, hk]

/-- Past index zero, the converted display list holds no primary. -/
theorem countP_primary_enumFrom (devices : List ColormgrDevice) :
    ∀ k, 1 ≤ k →
      ((devices.enumFrom k).map Linux.convert_display).countP
        (fun d => d.is_primary) = 0 := by
  induction devices with
  | nil => intro k _; rfl
  | cons d rest ih =>
    intro k hk
    rw [List.enumFrom_cons, List.map_cons, List.countP_cons,
      convert_display_not_primary k (by omega) d, ih (k + 1) (by omega)]
    simp

/-- `convert_devices_to_displays` marks at most one display primary. -/
theorem convert_countP (devices : List ColormgrDevice)
    (displays : List Display)
    (h : Linux.convert_devices_to_displays devices = .ok displays) :
    displays.countP (fun d => d.is_primary) ≤ 1 := by
  unfold Linux.convert_devices_to_displays at h
  split at h
  · cases h
  · cases h
    cases devices with
    | nil => simp
    | cons d rest =>
      show ((((d :: rest).enumFrom 0).map Linux.convert_display).countP
        (fun d => d.is_primary)) ≤ 1
      rw [List.enumFrom_cons, List.map_cons, List.countP_cons,
        countP_primary_enumFrom rest 1 le_rfl]
      simp [Linux.convert_display]

/-- The colormgr leg of `get_displays` yields at most one primary. -/
theorem get_displays_colormgr_countP (cfg : ProfileConfig) (env : LinuxEnv)
    (displays : List Display)
    (h : Linux.get_displays_colormgr cfg env = .ok displays) :
    displays.countP (fun d => d.is_primary) ≤ 1 := by
  unfold Linux.get_displays_colormgr at h
  split at h
  · exact convert_countP _ _ h
  · split at h
    · cases h
    · split at h
      · split at h
        · cases h
          simp
        · cases h
      · cases h

/-- If every monitor is unflagged, the enumerated search finds no
primary. -/
theorem enum_find_primary_none (monitors : List Monitor)
    (h : monitors.all (fun mo => !mo.is_primary) = true) :
    monitors.enum.find? (fun im => im.2.is_primary) = none := by
  rw [List.find?_eq_none]
  intro x hx
  obtain ⟨-, -, hsnd⟩ := List.mem_enumFrom hx
  have hmem : x.2 ∈ monitors := by
    rw [hsnd]
    exact List.getElem_mem _
  have := List.all_eq_true.mp h x.2 hmem
  simp_all

/-! ## Claims about the resolution engine and providers -/

/-- Configuration with D-Bus preferred and fallback disabled. -/
def cfg_no_fallback : ProfileConfig :=
  { linux_prefer_dbus := true, fallback_enabled := false }

/-- Environment where the selected D-Bus adapter fails with its own
specific error `SystemError "boom"`. -/
def env_dbus_boom : LinuxEnv :=
  { dbus_feature := true
    dbus_available := true
    dbus_devices := .error (.SystemError "boom")
    dbus_profile := fun _ => .error (.SystemError "boom")
    colormgr_devices := .ok [⟨"dev1", "display", "Model", "Vendor", "",
      ["p1"]⟩]
    colormgr_profile := fun _ =>
      .error (.SystemError "colormgr unreachable")
    fs_entries := []
    read_file := fun _ => .error "unreachable" }

/-- C1 counterexample: with fallback disabled and the D-Bus adapter
tried first and failing with `SystemError "boom"`, the caller observes
the fixed generic `SystemError "D-Bus method failed and fallback is
disabled"` rather than the adapter's own error. -/
theorem c1_counterexample :
    env_dbus_boom.dbus_devices = .error (.SystemError "boom") ∧
    Linux.get_displays cfg_no_fallback env_dbus_boom =
      .error (.SystemError
        "D-Bus method failed and fallback is disabled") ∧
    ProfileError.SystemError "D-Bus method failed and fallback is disabled"
      ≠ ProfileError.SystemError "boom" :=
  ⟨rfl, rfl, by decide⟩

/-- C1 amended: with `fallback_enabled = false`, after the first-tried
adapter fails the colormgr baseline is never invoked (the result is
insensitive to the colormgr fields of the environment); the caller
observes the colormgr adapter's own error when colormgr is tried first,
but the fixed generic `SystemError` — not the D-Bus adapter's own
error — when D-Bus was tried first, for both display enumeration and
profile resolution. -/
theorem c1_amended (cfg : ProfileConfig) (env : LinuxEnv)
    (hfb : cfg.fallback_enabled = false) :
    (Linux.should_use_dbus cfg env = false →
      ∀ e, env.colormgr_devices = .error e →
        Linux.get_displays cfg env = .error e) ∧
    (Linux.should_use_dbus cfg env = true →
      ∀ e, env.dbus_devices = .error e →
        ∀ cd cp,
          Linux.get_displays cfg
            { env with colormgr_devices := cd, colormgr_profile := cp } =
          .error (.SystemError
            "D-Bus method failed and fallback is disabled")) ∧
    (Linux.should_use_dbus cfg env = true →
      ∀ display : Display,
        (display.id == "filesystem-fallback") = false →
        Linux.dbus_profile_attempt env display = none →
        ∀ cd cp,
          Linux.get_profile cfg
            { env with colormgr_devices := cd, colormgr_profile := cp }
            display =
          .error (.SystemError
            "D-Bus method failed and fallback is disabled")) := by
  refine ⟨?_, ?_, ?_⟩
  · intro hsud e he
    rw [Linux.get_displays, hsud]
    simp only [Bool.false_eq_true, if_false]
    rw [Linux.get_displays_colormgr, he, hfb]
    rfl
  · intro hsud e he cd cp
    rw [Linux.get_displays, should_use_dbus_update, hsud]
    simp only [if_true]
    show (match env.dbus_devices with
      | .ok devices => Linux.convert_devices_to_displays devices
      | .error _ =>
        if !cfg.fallback_enabled then
          .error (.SystemError
            "D-Bus method failed and fallback is disabled")
        else Linux.get_displays_colormgr cfg
          { env with colormgr_devices := cd, colormgr_profile := cp }) = _
    rw [he, hfb]
    rfl
  · intro hsud display hid hatt cd cp
    rw [Linux.get_profile]
    have hfs : Linux.fs_fallback_profile
        { env with colormgr_devices := cd, colormgr_profile := cp }
        display = none := by
      rw [Linux.fs_fallback_profile, hid]
      rfl
    rw [hfs, should_use_dbus_update, hsud]
    simp only [if_true]
    rw [dbus_profile_attempt_update, hatt, hfb]
    rfl

/-- C1 witness: the amended statement at the concrete failing
environment. -/
theorem c1_amended_witness :
    Linux.get_displays cfg_no_fallback env_dbus_boom =
      .error (.SystemError
        "D-Bus method failed and fallback is disabled") :=
  (c1_amended cfg_no_fallback env_dbus_boom rfl).2.1 rfl
    (.SystemError "boom") rfl env_dbus_boom.colormgr_devices
    env_dbus_boom.colormgr_profile

/-- C6: when the structured backends fail for enumeration, fallback is
enabled, and the filesystem scan finds at least one profile file, the
engine returns exactly one synthetic primary display with the sentinel
id, and its profile resolves to the first scanned file's stem, no
description, and `Unknown` color space. -/
theorem c6_filesystem_fallback (cfg : ProfileConfig) (env : LinuxEnv)
    (hfb : cfg.fallback_enabled = true)
    (hdb : Linux.should_use_dbus cfg env = false ∨
      ∃ e, env.dbus_devices = .error e)
    (hcm : ∃ e, env.colormgr_devices = .error e)
    (ps : List PathBuf) (p : PathBuf)
    (hscan : Linux.scan_filesystem_profiles env = .ok ps)
    (hp : ps.head? = some p) :
    Linux.get_displays cfg env =
      .ok [{ id := "filesystem-fallback", name := "Generic Display",
             is_primary := true }] ∧
    Linux.get_profile cfg env
      { id := "filesystem-fallback", name := "Generic Display",
        is_primary := true } =
      .ok { name := p.file_stem.getD "Unknown Profile",
            description := none, file_path := some p,
            color_space := .Unknown } := by
  obtain ⟨e, he⟩ := hcm
  have hne : ps.isEmpty = false := by
    cases ps
    · cases hp
    · rfl
  have hcmleg : Linux.get_displays_colormgr cfg env =
      .ok [{ id := "filesystem-fallback", name := "Generic Display",
             is_primary := true }] := by
    rw [Linux.get_displays_colormgr, he, hfb, hscan]
    simp [hne]
  constructor
  · rw [Linux.get_displays]
    rcases hdb with hsud | ⟨e', he'⟩
    · rw [hsud]
      simpa using hcmleg
    · by_cases hsud : Linux.should_use_dbus cfg env = true
      · rw [hsud]
        simp only [if_true]
        rw [he', hfb]
        simpa using hcmleg
      · rw [Bool.not_eq_true] at hsud
        rw [hsud]
        simpa using hcmleg
  · rw [Linux.get_profile, Linux.fs_fallback_profile]
    simp only [beq_self_eq_true, if_true]
    rw [hscan]
    simp [hp]

/-- Environment where D-Bus is absent, colormgr fails, and one `.icc`
file sits in a scanned profile directory. -/
def env_fs_fallback : LinuxEnv :=
  { dbus_feature := false
    dbus_available := false
    dbus_devices := .error (.SystemError "no dbus")
    dbus_profile := fun _ => .error (.SystemError "no dbus")
    colormgr_devices := .error (.SystemError
      "colormgr command not found. Please install colord package.")
    colormgr_profile := fun _ => .error (.SystemError
      "colormgr command not found. Please install colord package.")
    fs_entries := [⟨"/usr/share/color/icc", "sRGB", some "icc"⟩]
    read_file := fun _ => .error "unreachable" }

/-- C6 witness: with colormgr failing and `sRGB.icc` on disk, the
synthetic display appears and its profile carries the file stem. -/
theorem c6_filesystem_fallback_witness :
    Linux.get_displays ProfileConfig.default env_fs_fallback =
      .ok [{ id := "filesystem-fallback", name := "Generic Display",
             is_primary := true }] ∧
    Linux.get_profile ProfileConfig.default env_fs_fallback
      { id := "filesystem-fallback", name := "Generic Display",
        is_primary := true } =
      .ok { name := "sRGB", description := none,
            file_path := some ⟨"/usr/share/color/icc", "sRGB", some "icc"⟩,
            color_space := .Unknown } := by
  have h := c6_filesystem_fallback ProfileConfig.default env_fs_fallback
    rfl (Or.inl rfl) ⟨_, rfl⟩
    [⟨"/usr/share/color/icc", "sRGB", some "icc"⟩]
    ⟨"/usr/share/color/icc", "sRGB", some "icc"⟩ rfl rfl
  exact ⟨h.1, by rw [h.2]; rfl⟩

/-- Windows environment with a single monitor that carries no primary
flag. -/
def env_win_noprimary : WindowsEnv :=
  { monitors := .ok [⟨"DISPLAY1", false⟩]
    resolve_profile := fun _ => .error (.SystemError "unreachable")
    read_file := fun _ => .error "unreachable" }

/-- C7 counterexample: the Windows provider enumerates one display with
`is_primary = false`, yet "get primary display" succeeds with that
monitor promoted to primary instead of returning `DisplayNotFound`. -/
theorem c7_counterexample :
    Windows.get_displays env_win_noprimary =
      .ok [{ id := "monitor_0", name := "DISPLAY1", is_primary := false }] ∧
    Windows.get_primary_display env_win_noprimary =
      .ok { id := "monitor_0", name := "DISPLAY1", is_primary := true } ∧
    Windows.get_primary_display env_win_noprimary ≠
      .error (.DisplayNotFound "No displays found") :=
  ⟨rfl, rfl, by decide⟩

/-- C7 amended: the Linux and mock providers return the first
enumerated display flagged primary and `DisplayNotFound` otherwise; the
Windows provider returns the first monitor flagged primary, but when no
monitor is flagged it falls back to the first monitor (reported as
primary), and returns `DisplayNotFound` only when no monitors exist. -/
theorem c7_amended :
    (∀ cfg env displays, Linux.get_displays cfg env = .ok displays →
      Linux.get_primary_display cfg env =
        match displays.find? (fun d => d.is_primary) with
        | some d => .ok d
        | none => .error (.DisplayNotFound "No primary display found")) ∧
    (∀ m : MockProfileProvider, m.should_fail "get_primary_display" = none →
      Mock.get_primary_display m =
        match m.displays.find? (fun d => d.is_primary) with
        | some d => .ok d
        | none => .error (.DisplayNotFound "No primary display found")) ∧
    (∀ (env : WindowsEnv) monitors i mon, env.monitors = .ok monitors →
      monitors.enum.find? (fun im => im.2.is_primary) = some (i, mon) →
      Windows.get_primary_display env =
        .ok { id := "monitor_" ++ toString i, name := mon.name,
              is_primary := true }) ∧
    (∀ (env : WindowsEnv) monitors, env.monitors = .ok monitors →
      monitors.all (fun mo => !mo.is_primary) = true →
      Windows.get_primary_display env =
        match monitors.head? with
        | some mon =>
          .ok { id := "monitor_0", name := mon.name, is_primary := true }
        | none => .error (.DisplayNotFound "No displays found")) := by
  refine ⟨?_, ?_, ?_, ?_⟩
  · intro cfg env displays h
    rw [Linux.get_primary_display, h]
  · intro m hm
    rw [Mock.get_primary_display, hm]
  · intro env monitors i mon henv hfind
    rw [Windows.get_primary_display, henv]
    simp [hfind]
  · intro env monitors henv hall
    rw [Windows.get_primary_display, henv]
    simp [enum_find_primary_none monitors hall]

/-- Mock provider whose one display is not primary. -/
def mock_no_primary : MockProfileProvider :=
  { displays := [⟨"a", "A", false⟩]
    profiles := fun _ => none
    profile_data := fun _ => none
    should_fail := fun _ => none }

/-- Environment where colormgr answers with one device whose profile
record carries no filename. -/
def env_cm_nopath : LinuxEnv :=
  { dbus_feature := false
    dbus_available := false
    dbus_devices := .error (.SystemError "no dbus")
    dbus_profile := fun _ => .error (.SystemError "no dbus")
    colormgr_devices := .ok [⟨"dev1", "display", "LG", "Goldstar", "",
      ["icc-p1"]⟩]
    colormgr_profile := fun _ =>
      .ok ⟨"icc-p1", none, some "Embedded", "icc", "rgb"⟩
    fs_entries := []
    read_file := fun _ => .error "unreachable" }

/-- C7 witness: the amended behaviors at concrete provider states — the
mock with no primary display yields `DisplayNotFound`, Windows promotes
its only monitor, Linux finds the first (index-zero) display. -/
theorem c7_amended_witness :
    Mock.get_primary_display mock_no_primary =
      .error (.DisplayNotFound "No primary display found") ∧
    Windows.get_primary_display env_win_noprimary =
      .ok { id := "monitor_0", name := "DISPLAY1", is_primary := true } ∧
    Linux.get_primary_display ProfileConfig.default env_cm_nopath =
      .ok { id := "dev1", name := "Goldstar LG", is_primary := true } := by
  refine ⟨?_, ?_, ?_⟩
  · rw [c7_amended.2.1 mock_no_primary rfl]
    rfl
  · exact c7_amended.2.2.2 env_win_noprimary [⟨"DISPLAY1", false⟩] rfl rfl
  · rw [c7_amended.1 ProfileConfig.default env_cm_nopath
      [{ id := "dev1", name := "Goldstar LG", is_primary := true }] rfl]
    rfl

/-- C8: both providers' "get raw profile bytes" first resolve the
display's profile and then read from its file path; a resolved profile
without a file path fails with `ProfileNotAvailable`, not `IoError`. -/
theorem c8_profile_data_requires_path (cfg : ProfileConfig) (env : LinuxEnv)
    (wenv : WindowsEnv) (display : Display) :
    (∀ info, Linux.get_profile cfg env display = .ok info →
      (info.file_path = none →
        Linux.get_profile_data cfg env display =
          .error (.ProfileNotAvailable
            ("No file path available for display " ++ display.id))) ∧
      (∀ path, info.file_path = some path →
        Linux.get_profile_data cfg env display =
          Linux.load_profile_data env path)) ∧
    (∀ info, wenv.resolve_profile display = .ok info →
      (info.file_path = none →
        Windows.get_profile_data wenv display =
          .error (.ProfileNotAvailable "Profile file path not available")) ∧
      (∀ path, info.file_path = some path →
        Windows.get_profile_data wenv display =
          Windows.read_profile_file wenv path)) := by
  constructor
  · intro info hinfo
    constructor
    · intro hpath
      rw [Linux.get_profile_data, hinfo]
      simp [hpath]
    · intro path hpath
      rw [Linux.get_profile_data, hinfo]
      simp [hpath]
  · intro info hinfo
    constructor
    · intro hpath
      rw [Windows.get_profile_data, hinfo]
      simp [hpath]
    · intro path hpath
      rw [Windows.get_profile_data, hinfo]
      simp [hpath]

/-- Windows environment whose profile resolution lands on the built-in
`Default sRGB` info, which has no file path. -/
def wenv_nopath : WindowsEnv :=
  { monitors := .ok [⟨"DISPLAY1", true⟩]
    resolve_profile := fun _ =>
      .ok ⟨"Default sRGB", some "Default sRGB color space (fallback)",
        none, .RGB⟩
    read_file := fun _ => .error "unreachable" }

/-- C8 witness: profiles resolved without a file path yield
`ProfileNotAvailable` on both providers. -/
theorem c8_profile_data_requires_path_witness :
    Linux.get_profile_data ProfileConfig.default env_cm_nopath
      { id := "dev1", name := "Goldstar LG", is_primary := true } =
      .error (.ProfileNotAvailable
        "No file path available for display dev1") ∧
    Windows.get_profile_data wenv_nopath
      { id := "monitor_0", name := "DISPLAY1", is_primary := true } =
      .error (.ProfileNotAvailable "Profile file path not available") := by
  constructor
  · exact ((c8_profile_data_requires_path ProfileConfig.default
      env_cm_nopath wenv_nopath
      { id := "dev1", name := "Goldstar LG", is_primary := true }).1
      _ rfl).1 rfl
  · exact ((c8_profile_data_requires_path ProfileConfig.default
      env_cm_nopath wenv_nopath
      { id := "monitor_0", name := "DISPLAY1", is_primary := true }).2
      _ rfl).1 rfl

/-- Mock provider state holding two displays both flagged primary. -/
def mock_two_primaries : MockProfileProvider :=
  { displays := [⟨"a", "A", true⟩, ⟨"b", "B", true⟩]
    profiles := fun _ => none
    profile_data := fun _ => none
    should_fail := fun _ => none }

/-- C9 counterexample: the mock provider's enumeration returns its
configured displays verbatim, here two displays with
`is_primary = true`. -/
theorem c9_counterexample :
    Mock.get_displays mock_two_primaries =
      .ok [{ id := "a", name := "A", is_primary := true },
           { id := "b", name := "B", is_primary := true }] ∧
    ([{ id := "a", name := "A", is_primary := true },
      { id := "b", name := "B", is_primary := true }] : List Display).countP
      (fun d => d.is_primary) = 2 :=
  ⟨rfl, rfl⟩

/-- C9 amended: the Linux provider's enumeration never yields more than
one primary display (only index zero or the lone synthetic fallback
display is flagged); the mock provider echoes its configured state and
offers no such guarantee. -/
theorem c9_amended :
    (∀ cfg env displays, Linux.get_displays cfg env = .ok displays →
      displays.countP (fun d => d.is_primary) ≤ 1) ∧
    (∀ m : MockProfileProvider, m.should_fail "get_displays" = none →
      Mock.get_displays m = .ok m.displays) := by
  constructor
  · intro cfg env displays h
    rw [Linux.get_displays] at h
    split at h
    · split at h
      · exact convert_countP _ _ h
      · split at h
        · cases h
        · exact get_displays_colormgr_countP cfg env displays h
    · exact get_displays_colormgr_countP cfg env displays h
  · intro m hm
    rw [Mock.get_displays, hm]

/-- C9 witness: the amended statements at concrete states — one Linux
enumeration has exactly one primary, and the mock echoes the
two-primary state. -/
theorem c9_amended_witness :
    ([{ id := "dev1", name := "Goldstar LG", is_primary := true }] :
      List Display).countP (fun d => d.is_primary) ≤ 1 ∧
    Mock.get_displays mock_two_primaries = .ok mock_two_primaries.displays :=
  ⟨c9_amended.1 ProfileConfig.default env_cm_nopath
      [{ id := "dev1", name := "Goldstar LG", is_primary := true }] rfl,
   c9_amended.2 mock_two_primaries rfl⟩

end DisplayIcc
